import Mathlib

/-
Verification development for the WawaChat desktop application
(files `wawachat-v1.5.py`, `model_manager.py`, `credentials_manager.py`).
Each Python function relevant to the verified properties is shallowly
embedded as an executable Lean definition; machine floats are modelled
as exact rationals, Python exceptions as explicit flags or `Option`
results, and UI/thread effects as explicit state values.
-/

set_option autoImplicit false

namespace WawaChat

/-! ## Python numeric parsing

`get_generation_parameters` converts UI entry strings with Python's
`int(...)` / `float(...)` and treats `ValueError`/`TypeError` as a signal
to fall back to a default.  We embed the two conversions on the decimal
grammar they accept (optional sign, digits, fraction, exponent; leading
and trailing whitespace stripped); conversions outside that grammar
(underscore separators, `inf`, `nan`, non-ASCII digits) are modelled as
failures, which is faithful for every value reachable from this UI. -/

/-- Leading/trailing-whitespace strip performed by Python `int`/`float`
before conversion (Lean's `String.trim` is not used so that every
definition reduces structurally). -/
def pyStrip (cs : List Char) : List Char :=
  ((cs.dropWhile Char.isWhitespace).reverse.dropWhile Char.isWhitespace).reverse

/-- Numeric value of a digit string (most significant digit first). -/
def natOfDigits (ds : List Char) : Nat :=
  ds.foldl (fun a c => a * 10 + (c.toNat - 48)) 0

/-- Parse a non-empty all-digit string, else fail. -/
def digitsVal? (ds : List Char) : Option Nat :=
  if ds.isEmpty then none
  else if ds.all (·.isDigit) then some (natOfDigits ds) else none

/-- Python `int(s)`: strip whitespace, optional sign, decimal digits. -/
def pythonInt? (s : String) : Option Int :=
  match pyStrip s.data with
  | '+' :: rest => (digitsVal? rest).map (fun n => (n : Int))
  | '-' :: rest => (digitsVal? rest).map (fun n => -(n : Int))
  | t => (digitsVal? t).map (fun n => (n : Int))

/-- Value of a fractional digit string, e.g. `"25"` ↦ `1/4`. -/
def fracVal (ds : List Char) : ℚ :=
  (natOfDigits ds : ℚ) / 10 ^ ds.length

/-- Exponent suffix of a float literal: sign and digits after `e`/`E`. -/
def parseSignedExp? (m : ℚ) (cs : List Char) : Option ℚ :=
  match cs with
  | '+' :: rest => (digitsVal? rest).map (fun n => m * 10 ^ n)
  | '-' :: rest => (digitsVal? rest).map (fun n => m / 10 ^ n)
  | t => (digitsVal? t).map (fun n => m * 10 ^ n)

/-- Optional exponent part following the mantissa `m`. -/
def parseExp? (m : ℚ) : List Char → Option ℚ
  | [] => some m
  | 'e' :: rest => parseSignedExp? m rest
  | 'E' :: rest => parseSignedExp? m rest
  | _ => none

/-- Unsigned float literal: digits, optional `.` and fraction, optional
exponent; at least one mantissa digit required. -/
def parseFloatBody? (cs : List Char) : Option ℚ :=
  let ip := cs.takeWhile (·.isDigit)
  let rest1 := cs.dropWhile (·.isDigit)
  match rest1 with
  | '.' :: rest2 =>
      let fp := rest2.takeWhile (·.isDigit)
      let rest3 := rest2.dropWhile (·.isDigit)
      if ip.isEmpty && fp.isEmpty then none
      else parseExp? ((natOfDigits ip : ℚ) + fracVal fp) rest3
  | t => if ip.isEmpty then none else parseExp? (natOfDigits ip : ℚ) t

/-- Python `float(s)`: strip whitespace, optional sign, decimal literal. -/
def pythonFloat? (s : String) : Option ℚ :=
  match pyStrip s.data with
  | '+' :: rest => parseFloatBody? rest
  | '-' :: rest => (parseFloatBody? rest).map Neg.neg
  | t => parseFloatBody? t

/-! ## ParameterPolicy — `WawaChatApplication.get_generation_parameters`

The UI offers four numeric entries (`self.settings`), three booleean
combo boxes (`self.boolean_settings`, values `"True"`/`"False"`), and one
"Include" checkbox per setting (`self.include_settings`).  A request is
the raw contents of those widgets. -/

/-- One generation request as read from the settings widgets: an include
checkbox plus the raw entry text for each of the seven settings. -/
structure GenRequest where
  include_max_new_tokens : Bool
  max_new_tokens : String
  include_temperature : Bool
  temperature : String
  include_top_p : Bool
  top_p : String
  include_num_beams : Bool
  num_beams : String
  include_truncation : Bool
  truncation : String
  include_do_sample : Bool
  do_sample : String
  include_early_stopping : Bool
  early_stopping : String
  deriving DecidableEq

/-- The `parameters` dict built by `get_generation_parameters`: a field is
`none` exactly when the corresponding key is absent from the dict.
`repetition_penalty` appears in `mac_defaults` but the function can never
copy it into `parameters`; the field records that it stays absent. -/
structure GenParams where
  max_new_tokens : Option Int
  temperature : Option ℚ
  top_p : Option ℚ
  num_beams : Option Int
  repetition_penalty : Option ℚ
  truncation : Option Bool
  do_sample : Option Bool
  early_stopping : Option Bool
  use_cache : Option Bool
  deriving DecidableEq

/-- Loop body for `"max_new_tokens"`: included ⇒ `int(...)` with fallback
to `mac_defaults["max_new_tokens"] = 30`; not included ⇒ key absent. -/
def requestedTokens (req : GenRequest) : Option Int :=
  if req.include_max_new_tokens then some ((pythonInt? req.max_new_tokens).getD 30)
  else none

/-- Loop body for `"temperature"`: `float(...)` with fallback `0.7`. -/
def requestedTemperature (req : GenRequest) : Option ℚ :=
  if req.include_temperature then some ((pythonFloat? req.temperature).getD 0.7)
  else none

/-- Loop body for `"top_p"`: `float(...)` with fallback `0.92`. -/
def requestedTopP (req : GenRequest) : Option ℚ :=
  if req.include_top_p then some ((pythonFloat? req.top_p).getD 0.92)
  else none

/-- Loop body for `"num_beams"`: `int(...)` with fallback `1`. -/
def requestedBeams (req : GenRequest) : Option Int :=
  if req.include_num_beams then some ((pythonInt? req.num_beams).getD 1)
  else none

/-- `if parameters.get("max_new_tokens", 0) > 75: parameters["max_new_tokens"] = 75`. -/
def capTokens (o : Option Int) : Option Int :=
  if o.getD 0 > 75 then some 75 else o

/-- `if parameters.get("num_beams", 1) > 2: parameters["num_beams"] = 2`. -/
def capBeams (o : Option Int) : Option Int :=
  if o.getD 1 > 2 then some 2 else o

/-- `WawaChatApplication.get_generation_parameters`: gather included
settings (numeric entries parsed with fallback to `mac_defaults`, boolean
combo boxes compared against the literal `"True"`), apply the two hard
caps, then add `use_cache = True` (the guard `"use_cache" not in
parameters` always holds since no earlier step inserts that key). -/
def get_generation_parameters (req : GenRequest) : GenParams where
  max_new_tokens := capTokens (requestedTokens req)
  temperature := requestedTemperature req
  top_p := requestedTopP req
  num_beams := capBeams (requestedBeams req)
  repetition_penalty := none
  truncation := if req.include_truncation then some (req.truncation = "True") else none
  do_sample := if req.include_do_sample then some (req.do_sample = "True") else none
  early_stopping := if req.include_early_stopping then some (req.early_stopping = "True") else none
  use_cache := some true

/-- The request with every "Include" checkbox cleared: no parameter is
included by the caller.  Entry texts are irrelevant and left empty. -/
def emptyGenRequest : GenRequest where
  include_max_new_tokens := false
  max_new_tokens := ""
  include_temperature := false
  temperature := ""
  include_top_p := false
  top_p := ""
  include_num_beams := false
  num_beams := ""
  include_truncation := false
  truncation := ""
  include_do_sample := false
  do_sample := ""
  include_early_stopping := false
  early_stopping := ""

/-- Modelled from the spec (for comparison only): the full default table
the spec claims `Clamp({})` returns — maxNewTokens=30, temperature=0.7,
topP=0.92, numBeams=1, repetitionPenalty=1.2, useCache=true,
earlyStopping=true, doSample=false, truncation=true. -/
def specClampDefaultTable : GenParams where
  max_new_tokens := some 30
  temperature := some 0.7
  top_p := some 0.92
  num_beams := some 1
  repetition_penalty := some 1.2
  truncation := some true
  do_sample := some false
  early_stopping := some true
  use_cache := some true

/-- The request of the spec scenario `Clamp({maxNewTokens: 1000, numBeams: 5})`:
those two fields included, every other field excluded. -/
def bigGenRequest : GenRequest where
  include_max_new_tokens := true
  max_new_tokens := "1000"
  include_temperature := false
  temperature := ""
  include_top_p := false
  top_p := ""
  include_num_beams := true
  num_beams := "5"
  include_truncation := false
  truncation := ""
  include_do_sample := false
  do_sample := ""
  include_early_stopping := false
  early_stopping := ""

/-- A request with every setting included but none of the numeric entry
texts parseable as a number (the boolean combo boxes hold junk too). -/
def junkGenRequest : GenRequest where
  include_max_new_tokens := true
  max_new_tokens := "lots"
  include_temperature := true
  temperature := "warm"
  include_top_p := true
  top_p := "??"
  include_num_beams := true
  num_beams := "3.5"
  include_truncation := true
  truncation := "maybe"
  include_do_sample := true
  do_sample := "True"
  include_early_stopping := true
  early_stopping := "False"

/-! ## ConversationLog and the generate path — `wawachat-v1.5.py`

`send_message` spawns `generate_and_display_response(new_message)` on a
worker thread; that function returns early when the model is not yet
initialized, otherwise appends the User turn to `chat_history` and spawns
`process_response`, which renders the chat template, runs the pipeline,
trims the raw text at the first `"</s>"` and appends the Assistant turn.
UI-widget effects (status bar, text box) are not part of the state; the
console output and the decision to spawn the worker are returned
explicitly. -/

/-- A conversation role, as the `"role"` key of a `chat_history` entry. -/
inductive Role where
  | user
  | assistant
  deriving DecidableEq

/-- One `chat_history` entry `{"role": ..., "content": ...}`. -/
structure Turn where
  role : Role
  content : String
  deriving DecidableEq

/-- The end-of-sequence marker used by `trim_response`. -/
def eosToken : String := "</s>"

/-- Characters strictly before the first occurrence of `sep`, the whole
list when `sep` does not occur: the semantics of `text.split(sep)[0]`. -/
def splitFirstSeg (sep : List Char) : List Char → List Char
  | [] => []
  | c :: cs => if sep.isPrefixOf (c :: cs) then [] else c :: splitFirstSeg sep cs

/-- Whether `sep` occurs as a contiguous subsequence. -/
def containsSeq (sep : List Char) : List Char → Bool
  | [] => sep.isEmpty
  | c :: cs => sep.isPrefixOf (c :: cs) || containsSeq sep cs

/-- `WawaChatApplication.trim_response`: `response_text.split("</s>")[0]`. -/
def trim_response (response_text : String) : String :=
  ⟨splitFirstSeg eosToken.data response_text.data⟩

/-- The session state the generate path reads and writes:
`model_initialized` is the `threading.Event` set at the end of
`initialize_model`; `generation_in_flight` records that a previously
spawned `process_response` worker has not finished (the code keeps no such
flag — the field tracks the real condition so that its influence, or lack
of it, can be stated); `chat_history` is the ConversationLog. -/
structure ChatAppState where
  model_initialized : Bool
  generation_in_flight : Bool
  chat_history : List Turn
  deriving DecidableEq

/-- Result of dispatching one send: the state afterwards, the lines
printed to the console, and whether a `process_response` worker was
spawned. -/
structure GenDispatch where
  state : ChatAppState
  console : List String
  spawned : Bool
  deriving DecidableEq

/-- `WawaChatApplication.generate_and_display_response` (worker entry,
spawned by `send_message`): if the model is not initialized, print a
not-ready message and return without touching `chat_history`; otherwise
append the User turn and spawn `process_response`.  The only guard is
`model_initialized` — an in-flight generation is not consulted. -/
def generate_and_display_response (st : ChatAppState) (input_text : String) : GenDispatch :=
  if !st.model_initialized then
    { state := st
      console := ["Model is not yet initialized. Please wait..."]
      spawned := false }
  else
    { state := { st with
        chat_history := st.chat_history ++ [⟨Role.user, input_text⟩]
        generation_in_flight := true }
      console := []
      spawned := true }

/-- Success path of `WawaChatApplication.process_response`: the pipeline
returned `raw` as `response[0]['generated_text']`; the trimmed text is
appended as the Assistant turn. -/
def process_response_success (st : ChatAppState) (raw : String) : ChatAppState :=
  { st with
    chat_history := st.chat_history ++ [⟨Role.assistant, trim_response raw⟩]
    generation_in_flight := false }

/-- A whole successful generation on an initialized session: dispatch the
user text, then complete with the runtime's raw generated text `raw`. -/
def successful_generate (st : ChatAppState) (input_text raw : String) : ChatAppState :=
  process_response_success (generate_and_display_response st input_text).state raw

/-- A Ready session with an empty log. -/
def readyState : ChatAppState where
  model_initialized := true
  generation_in_flight := false
  chat_history := []

/-- A session with the model initialized and a generation in flight. -/
def busyState : ChatAppState where
  model_initialized := true
  generation_in_flight := true
  chat_history := []

/-- A session still loading (the `threading.Event` not yet set). -/
def loadingState : ChatAppState where
  model_initialized := false
  generation_in_flight := false
  chat_history := []

/-! ## Heartbeat — the timer inside `process_response` -/

/-- `MAX_GENERATION_TIME` (seconds). -/
def MAX_GENERATION_TIME : ℚ := 30

/-- The `update_generation_status` closure: given the elapsed seconds it
sets a status message and, below the threshold, re-arms itself with
`self.window.after(500, ...)`; the returned `Option Nat` is the delay of
the next scheduled tick (`none`: no further tick is scheduled).  The
first tick is armed the same way, 500 ms after generation starts.
`int(elapsed)` is `⌊elapsed⌋` since the elapsed time is nonnegative. -/
def update_generation_status (elapsed : ℚ) : String × Option Nat :=
  if elapsed < MAX_GENERATION_TIME then
    ("Generating response... (" ++ toString ⌊elapsed⌋ ++ "s)", some 500)
  else
    ("Generation is taking longer than expected...", none)

/-! ## ModelCacheManager — `model_manager.py`

`scan_cache_dir` (huggingface_hub) is the structured scan: it reports an
aggregate `size_on_disk` plus repositories with revisions.  `ModelManager`
wraps it: `get_cache_info` returns `None` when the scan raises,
`get_downloaded_models` folds the revisions into JSON-ready dicts with a
per-revision `try/except`, `get_total_cache_size` reads the aggregate and
falls back to an `os.walk` byte count.  Sizes are exact rationals;
`round(x, 2)` is embedded as rounding to hundredths (round-half-up, which
agrees with Python on every tie-free value used here). -/

/-- Python `round(x, 2)` on an exact rational. -/
def round2 (q : ℚ) : ℚ :=
  (round (q * 100) : ℚ) / 100

/-- A JSON-ready dict value as produced by `get_downloaded_models`:
strings, the int `0` of the error branch, rounded floats, and the file
list (modelled as the file names; real `CachedFileInfo` carries more). -/
inductive JValue where
  | jstr (s : String)
  | jint (n : Int)
  | jfloat (q : ℚ)
  | jfiles (names : List String)
  deriving DecidableEq

/-- One revision as seen by the scan.  `readOk = false` models the
per-revision reads raising, which sends `get_downloaded_models` into its
`except` branch with `str(e) = errMsg`.  `commit_hash`/`files` are `none`
when the attribute is missing (`getattr` default / `hasattr` guard);
`last_modified` holds the ISO-8601 text of the timestamp, `none` when the
attribute is falsy. -/
structure Revision where
  commit_hash : Option String
  size_on_disk : Nat
  last_modified : Option String
  files : Option (List String)
  readOk : Bool
  errMsg : String
  deriving DecidableEq

/-- One cached repository: `repo_id` plus its revisions. -/
structure CachedRepo where
  repo_id : String
  revisions : List Revision
  deriving DecidableEq

/-- The object returned by `scan_cache_dir`: the aggregate on-disk size it
reports, and the repositories. -/
structure CacheInfo where
  size_on_disk : Nat
  repos : List CachedRepo
  deriving DecidableEq

/-- The manager's view of the world: the scan result (`none` when
`scan_cache_dir` raised) and the total bytes an `os.walk` of the cache
directory would count. -/
structure CacheEnv where
  cacheInfo : Option CacheInfo
  walkBytes : Nat
  deriving DecidableEq

/-- `ModelManager.get_cache_info`: the scan result, `None` on failure. -/
def get_cache_info (env : CacheEnv) : Option CacheInfo :=
  env.cacheInfo

/-- Loop body of `ModelManager.get_downloaded_models` for one revision:
the dict appended to `models`, in insertion order of its keys.  The
`except` branch appends the minimal dict (note: key `"error"`, no
`"files"`). -/
def revisionRecord (repoId : String) (rev : Revision) : List (String × JValue) :=
  if rev.readOk then
    [("repo_id", .jstr repoId),
     ("revision", .jstr (rev.commit_hash.getD "unknown")),
     ("size_mb", .jfloat (round2 ((rev.size_on_disk : ℚ) / (1024 * 1024)))),
     ("last_modified", .jstr (rev.last_modified.getD "Unknown")),
     ("files", .jfiles (rev.files.getD []))]
  else
    [("repo_id", .jstr repoId),
     ("revision", .jstr "unknown"),
     ("size_mb", .jint 0),
     ("last_modified", .jstr "Unknown"),
     ("error", .jstr rev.errMsg)]

/-- `ModelManager.get_downloaded_models`: empty when the scan failed,
otherwise every revision of every repository in order, each one a dict. -/
def get_downloaded_models (env : CacheEnv) : List (List (String × JValue)) :=
  match get_cache_info env with
  | none => []
  | some info =>
      (info.repos.map (fun repo => repo.revisions.map (revisionRecord repo.repo_id))).flatten

/-- `ModelManager.get_total_cache_size` (MB): the scan's aggregate
`size_on_disk` when the scan succeeded, else the `os.walk` byte count
(the real `CacheInfo` object always has the attribute, so the `hasattr`
guard is the `isSome` test). -/
def get_total_cache_size (env : CacheEnv) : ℚ :=
  match get_cache_info env with
  | some info => round2 ((info.size_on_disk : ℚ) / (1024 * 1024))
  | none => round2 ((env.walkBytes : ℚ) / (1024 * 1024))

/-- The `size_mb` entry of one exported dict. -/
def recordSizeMB (r : List (String × JValue)) : ℚ :=
  match (r.find? (fun p => p.1 == "size_mb")).map Prod.snd with
  | some (.jfloat q) => q
  | some (.jint n) => (n : ℚ)
  | _ => 0

/-- Sum of the per-model sizes of a scan's model list (MB). -/
def modelsSizeSum (env : CacheEnv) : ℚ :=
  ((get_downloaded_models env).map recordSizeMB).sum

/-- `ModelManager.delete_model`: delegates to
`huggingface_hub.delete_from_cache`; `deleteError` is `str(e)` when that
call raises, `none` when it succeeds.  Python formats a `None` revision
as the text `"None"`. -/
def delete_model (deleteError : Option String) (repo_id : String)
    (revision : Option String) : Bool × String :=
  match deleteError with
  | none => (true, "Successfully deleted " ++ repo_id ++ " (" ++ revision.getD "None" ++ ")")
  | some e => (false, "Error deleting model: " ++ e)

/-- `delete_model` invoked while the orchestrator's `initialize_model`
worker may be loading `loadingModel` from the same cache.  The source
gives `ModelManager` no view of the orchestrator's state, so the loading
argument cannot and does not influence the call. -/
def delete_model_during_load (loadingModel : Option String)
    (deleteError : Option String) (repo_id : String)
    (revision : Option String) : Bool × String :=
  delete_model deleteError repo_id revision

/-! ### JSON export — `ModelManager.export_models_info`

`json.dump(models, f, indent=2)` with `models` the list of dicts above.
The renderer below reproduces that output shape for the fixed nesting
depth of these dicts (an empty list serializes as the literal `[]`). -/

/-- `n` spaces. -/
def spacesStr (n : Nat) : String :=
  ⟨List.replicate n ' '⟩

/-- Hex digit. -/
def hexDigit (n : Nat) : Char :=
  if n < 10 then Char.ofNat (48 + n) else Char.ofNat (87 + (n % 6))

/-- One character of a JSON string under `json.dump`'s default
`ensure_ascii=True`: the two-character escapes, `\uXXXX` for other
control or non-ASCII characters (basic plane), else the character. -/
def jsonEscapeChar (c : Char) : String :=
  if c = '"' then "\\\""
  else if c = '\\' then "\\\\"
  else if c = '\n' then "\\n"
  else if c = '\r' then "\\r"
  else if c = '\t' then "\\t"
  else if c.toNat = 8 then "\\b"
  else if c.toNat = 12 then "\\f"
  else if c.toNat < 32 || c.toNat > 126 then
    "\\u" ++ ⟨[hexDigit (c.toNat / 4096 % 16), hexDigit (c.toNat / 256 % 16),
               hexDigit (c.toNat / 16 % 16), hexDigit (c.toNat % 16)]⟩
  else ⟨[c]⟩

/-- A JSON string literal. -/
def renderJString (s : String) : String :=
  "\"" ++ String.join (s.data.map jsonEscapeChar) ++ "\""

/-- Python `repr` of a nonnegative float holding a multiple of 1/100 (the
only floats these dicts contain): integer part, then the shortest
fraction, `.0` for whole numbers. -/
def renderFloat2 (q : ℚ) : String :=
  let ipart : Int := ⌊q⌋
  let hundredths : Int := ⌊(q - ipart) * 100⌋
  if hundredths = 0 then toString ipart ++ ".0"
  else if hundredths % 10 = 0 then toString ipart ++ "." ++ toString (hundredths / 10)
  else if hundredths < 10 then toString ipart ++ ".0" ++ toString hundredths
  else toString ipart ++ "." ++ toString hundredths

/-- A value inside a record, rendered at the record's nesting depth. -/
def renderRecordValue : JValue → String
  | .jstr s => renderJString s
  | .jint n => toString n
  | .jfloat q => renderFloat2 q
  | .jfiles [] => "[]"
  | .jfiles names =>
      "[\n"
        ++ String.intercalate ",\n" (names.map (fun s => spacesStr 6 ++ renderJString s))
        ++ "\n" ++ spacesStr 4 ++ "]"

/-- One dict at depth 1 of the exported array. -/
def renderRecord (r : List (String × JValue)) : String :=
  if r.isEmpty then "\x7b\x7d"
  else
    "\x7b\n"
      ++ String.intercalate ",\n"
          (r.map (fun p => spacesStr 4 ++ renderJString p.1 ++ ": " ++ renderRecordValue p.2))
      ++ "\n" ++ spacesStr 2 ++ "\x7d"

/-- `json.dump(models, f, indent=2)`: the text written to the file. -/
def renderModelsJson (models : List (List (String × JValue))) : String :=
  if models.isEmpty then "[]"
  else
    "[\n" ++ String.intercalate ",\n" (models.map (fun r => spacesStr 2 ++ renderRecord r))
      ++ "\n]"

/-- `ModelManager.export_models_info`: on success, writes the serialized
model list to `file_path` and reports success; when opening or writing
raises (`ioError = str(e)`), reports the failure and writes nothing.  The
second component is the content written, `none` when nothing was. -/
def export_models_info (env : CacheEnv) (file_path : String)
    (ioError : Option String) : (Bool × String) × Option String :=
  match ioError with
  | some e => ((false, "Error exporting model information: " ++ e), none)
  | none =>
      ((true, "Model information exported to " ++ file_path),
       some (renderModelsJson (get_downloaded_models env)))

/-! ### Concrete cache environments for witnesses and counterexamples -/

/-- A failed structured scan over a cache directory holding 1 MiB: the
total comes from the `os.walk` fallback while the model list is empty. -/
def walkOnlyEnv : CacheEnv where
  cacheInfo := none
  walkBytes := 1048576

/-- A revision whose per-revision reads raise. -/
def failingRevision : Revision where
  commit_hash := some "abc123"
  size_on_disk := 1048576
  last_modified := none
  files := some []
  readOk := false
  errMsg := "read failed"

/-- A repository whose only revision fails to read. -/
def failingRepo : CachedRepo where
  repo_id := "acme/model"
  revisions := [failingRevision]

/-- Scan result containing only `failingRepo`. -/
def failingInfo : CacheInfo where
  size_on_disk := 1048576
  repos := [failingRepo]

/-- A scan with a single repository whose only revision fails to read. -/
def failingEnv : CacheEnv where
  cacheInfo := some failingInfo
  walkBytes := 1048576

/-- A healthy revision of a given size. -/
def okRevision (bytes : Nat) : Revision where
  commit_hash := some "deadbeef"
  size_on_disk := bytes
  last_modified := some "2024-01-02T03:04:05"
  files := some ["config.json"]
  readOk := true
  errMsg := ""

/-- Scan result: two repositories of 100 MiB and 250 MiB, the aggregate
consistent with the revision sizes. -/
def twoRepoInfo : CacheInfo where
  size_on_disk := 367001600
  repos := [{ repo_id := "a/one", revisions := [okRevision 104857600] },
            { repo_id := "b/two", revisions := [okRevision 262144000] }]

/-- Two repositories of 100 MiB and 250 MiB, consistently scanned. -/
def twoRepoEnv : CacheEnv where
  cacheInfo := some twoRepoInfo
  walkBytes := 367001600

/-- An empty cache: successful scan, no repositories. -/
def emptyCacheEnv : CacheEnv where
  cacheInfo := some { size_on_disk := 0, repos := [] }
  walkBytes := 0

/-! ## Secret store — `credentials_manager.py`

The API key is a Python string, represented here by its UTF-8 bytes.
`_simple_encrypt` is `base64.b64encode(text.encode()).decode()`;
`_simple_decrypt` inverts it, `None` on failure.  The OS keyring entry
`(WawaChat, huggingface_api_key)` and the config file's
`encrypted_api_key` key are the two backends; keyring and file I/O are
modelled as succeeding (their failure paths are not at issue here). -/

/-- The base64 alphabet. -/
def b64Alphabet : List Char :=
  "ABCDEFGHIJKLMNOPQRSTUVWXYZabcdefghijklmnopqrstuvwxyz0123456789+/".data

/-- The base64 digit for a 6-bit value. -/
def b64char (n : Nat) : Char :=
  b64Alphabet.getD n '='

/-- Standard base64 encoding of a byte sequence, with `=` padding. -/
def b64encode : List Nat → List Char
  | [] => []
  | [a] => [b64char (a / 4), b64char (a % 4 * 16), '=', '=']
  | [a, b] => [b64char (a / 4), b64char (a % 4 * 16 + b / 16), b64char (b % 16 * 4), '=']
  | a :: b :: c :: rest =>
      b64char (a / 4) :: b64char (a % 4 * 16 + b / 16) ::
        b64char (b % 16 * 4 + c / 64) :: b64char (c % 64) :: b64encode rest

/-- The 6-bit value of a base64 digit. -/
def b64val (c : Char) : Option Nat :=
  b64Alphabet.findIdx? (· == c)

/-- Base64 decoding; `none` on malformed input (Python's `b64decode`
raising, caught by `_simple_decrypt`'s bare `except`). -/
def b64decode : List Char → Option (List Nat)
  | [] => some []
  | [c1, c2, '=', '='] => do
      let v1 ← b64val c1
      let v2 ← b64val c2
      some [v1 * 4 + v2 / 16]
  | [c1, c2, c3, '='] => do
      let v1 ← b64val c1
      let v2 ← b64val c2
      let v3 ← b64val c3
      some [v1 * 4 + v2 / 16, v2 % 16 * 16 + v3 / 4]
  | c1 :: c2 :: c3 :: c4 :: rest => do
      let v1 ← b64val c1
      let v2 ← b64val c2
      let v3 ← b64val c3
      let v4 ← b64val c4
      let tl ← b64decode rest
      some ((v1 * 4 + v2 / 16) :: (v2 % 16 * 16 + v3 / 4) :: (v3 % 4 * 64 + v4) :: tl)
  | _ => none

/-- `CredentialsManager._simple_encrypt`. -/
def simple_encrypt (key : List Nat) : String :=
  ⟨b64encode key⟩

/-- `CredentialsManager._simple_decrypt`. -/
def simple_decrypt (s : String) : Option (List Nat) :=
  b64decode s.data

/-- The persistent state `CredentialsManager` reads and writes: the three
config entries it consults plus the OS keyring entry
`(WawaChat, huggingface_api_key)`.  `encrypted_api_key = none` models the
key being absent from the config dict. -/
structure CredState where
  use_keyring : Bool
  api_key_stored : Bool
  encrypted_api_key : Option String
  keyring_entry : Option (List Nat)
  deriving DecidableEq

/-- `CredentialsManager.get_api_key`: `None` unless a key is recorded as
stored; then the active backend is read — the keyring entry, or the
decrypted config entry (Python's `if encrypted_key:` treats a missing or
empty entry as absent). -/
def get_api_key (st : CredState) : Option (List Nat) :=
  if !st.api_key_stored then none
  else if st.use_keyring then st.keyring_entry
  else
    match st.encrypted_api_key with
    | some enc => if enc = "" then none else simple_decrypt enc
    | none => none

/-- `CredentialsManager.set_api_key`: an empty key is refused; otherwise
the key is written to the backend selected by `use_keyring`, the
`api_key_stored` flag is set, and success is reported.  The other
backend's entry is not touched. -/
def set_api_key (st : CredState) (api_key : List Nat) : CredState × (Bool × String) :=
  if api_key.isEmpty then (st, (false, "API key cannot be empty"))
  else
    let st1 :=
      if st.use_keyring then { st with keyring_entry := some api_key }
      else { st with encrypted_api_key := some (simple_encrypt api_key) }
    ({ st1 with api_key_stored := true }, (true, "API key saved successfully"))

/-- `CredentialsManager.set_keyring_preference`: read the key through the
OLD backend, switch the preference, then re-save the key (which now goes
to the NEW backend) when a nonempty key was retrievable and one is
recorded as stored. -/
def set_keyring_preference (st : CredState) (use_keyring : Bool) :
    CredState × (Bool × String) :=
  let current_key := get_api_key st
  let st1 := { st with use_keyring := use_keyring }
  match current_key with
  | some k =>
      if !k.isEmpty && st1.api_key_stored then set_api_key st1 k
      else (st1, (true, "Storage preference updated"))
  | none => (st1, (true, "Storage preference updated"))

/-- A state with the key `"hi"` (bytes `[104, 105]`) in the OS keyring. -/
def keyringStoredState : CredState where
  use_keyring := true
  api_key_stored := true
  encrypted_api_key := none
  keyring_entry := some [104, 105]

/-- A state with the same key stored obfuscated in the config file
(`base64("hi") = "aGk="`), keyring unused. -/
def fileStoredState : CredState where
  use_keyring := false
  api_key_stored := true
  encrypted_api_key := some "aGk="
  keyring_entry := none

/-! ## Theorems -/

/-- Any value present under `"max_new_tokens"` after the cap is ≤ 75. -/
theorem capTokens_le (o : Option Int) (v : Int) (h : capTokens o = some v) : v ≤ 75 := by
  cases o with
  | none => simp [capTokens] at h
  | some n =>
    simp only [capTokens, Option.getD_some] at h
    split_ifs at h <;> (injection h with h; omega)

/-- Any value present under `"num_beams"` after the cap is ≤ 2. -/
theorem capBeams_le (o : Option Int) (v : Int) (h : capBeams o = some v) : v ≤ 2 := by
  cases o with
  | none => simp [capBeams] at h
  | some n =>
    simp only [capBeams, Option.getD_some] at h
    split_ifs at h <;> (injection h with h; omega)

/-- C2 (counterexample): `get_generation_parameters` on an empty request
(no field included) does NOT return the spec's full default table — the
only key the function adds unconditionally is `use_cache`. -/
theorem clamp_empty_request_counterexample :
    get_generation_parameters emptyGenRequest ≠ specClampDefaultTable := by
  decide

/-- C2 (amended): `get_generation_parameters` on an empty request returns
a parameter dict whose only entry is `use_cache = True`; every excluded
field is absent (the defaults are applied only to included fields whose
entry text fails to parse). -/
theorem clamp_empty_request_only_use_cache :
    get_generation_parameters emptyGenRequest =
      { max_new_tokens := none
        temperature := none
        top_p := none
        num_beams := none
        repetition_penalty := none
        truncation := none
        do_sample := none
        early_stopping := none
        use_cache := some true } := by
  decide

/-- C3: every effective parameter dict satisfies `max_new_tokens ≤ 75` and
`num_beams ≤ 2` (values above are silently reduced to the ceiling);
`Clamp({maxNewTokens: 1000, numBeams: 5})` yields 75 and 2; and an
included field whose entry text cannot be parsed as a number silently
falls back to that field's default (30, 0.7, 0.92, 1 respectively). -/
theorem clamp_ceilings_and_fallback :
    (∀ (req : GenRequest) (v : Int),
        (get_generation_parameters req).max_new_tokens = some v → v ≤ 75) ∧
    (∀ (req : GenRequest) (v : Int),
        (get_generation_parameters req).num_beams = some v → v ≤ 2) ∧
    (get_generation_parameters bigGenRequest).max_new_tokens = some 75 ∧
    (get_generation_parameters bigGenRequest).num_beams = some 2 ∧
    (∀ req : GenRequest, req.include_max_new_tokens = true →
        pythonInt? req.max_new_tokens = none →
        (get_generation_parameters req).max_new_tokens = some 30) ∧
    (∀ req : GenRequest, req.include_temperature = true →
        pythonFloat? req.temperature = none →
        (get_generation_parameters req).temperature = some 0.7) ∧
    (∀ req : GenRequest, req.include_top_p = true →
        pythonFloat? req.top_p = none →
        (get_generation_parameters req).top_p = some 0.92) ∧
    (∀ req : GenRequest, req.include_num_beams = true →
        pythonInt? req.num_beams = none →
        (get_generation_parameters req).num_beams = some 1) := by
  refine ⟨?_, ?_, by decide, by decide, ?_, ?_, ?_, ?_⟩
  · intro req v h
    exact capTokens_le (requestedTokens req) v h
  · intro req v h
    exact capBeams_le (requestedBeams req) v h
  · intro req h1 h2
    norm_num [get_generation_parameters, requestedTokens, capTokens, h1, h2]
  · intro req h1 h2
    norm_num [get_generation_parameters, requestedTemperature, h1, h2]
  · intro req h1 h2
    norm_num [get_generation_parameters, requestedTopP, h1, h2]
  · intro req h1 h2
    norm_num [get_generation_parameters, requestedBeams, capBeams, h1, h2]

/-- C3 (witness): the ceilings and the silent fallbacks, instantiated at
the concrete requests `bigGenRequest` and `junkGenRequest`. -/
theorem clamp_ceilings_and_fallback_witness :
    (75 : Int) ≤ 75 ∧ (2 : Int) ≤ 2 ∧
    (get_generation_parameters junkGenRequest).max_new_tokens = some 30 ∧
    (get_generation_parameters junkGenRequest).temperature = some 0.7 ∧
    (get_generation_parameters junkGenRequest).top_p = some 0.92 ∧
    (get_generation_parameters junkGenRequest).num_beams = some 1 :=
  ⟨clamp_ceilings_and_fallback.1 bigGenRequest 75 (by decide),
   clamp_ceilings_and_fallback.2.1 bigGenRequest 2 (by decide),
   clamp_ceilings_and_fallback.2.2.2.2.1 junkGenRequest rfl (by decide),
   clamp_ceilings_and_fallback.2.2.2.2.2.1 junkGenRequest rfl (by decide),
   clamp_ceilings_and_fallback.2.2.2.2.2.2.1 junkGenRequest rfl (by decide),
   clamp_ceilings_and_fallback.2.2.2.2.2.2.2 junkGenRequest rfl (by decide)⟩

/-- `splitFirstSeg` is the identity when the separator does not occur. -/
theorem splitFirstSeg_of_not_contains (sep : List Char) (cs : List Char)
    (h : containsSeq sep cs = false) : splitFirstSeg sep cs = cs := by
  induction cs with
  | nil => rfl
  | cons c cs ih =>
    simp only [containsSeq, Bool.or_eq_false_iff] at h
    simp [splitFirstSeg, h.1, ih h.2]

/-- When the separator occurs, the input decomposes as the kept segment,
the separator, and a remainder. -/
theorem splitFirstSeg_append (sep : List Char) (cs : List Char)
    (h : containsSeq sep cs = true) :
    ∃ rest, cs = splitFirstSeg sep cs ++ sep ++ rest := by
  induction cs with
  | nil =>
    simp only [containsSeq, List.isEmpty_iff] at h
    exact ⟨[], by simp [splitFirstSeg, h]⟩
  | cons c cs ih =>
    by_cases hp : sep.isPrefixOf (c :: cs) = true
    · obtain ⟨t, ht⟩ := List.isPrefixOf_iff_prefix.mp hp
      exact ⟨t, by simp [splitFirstSeg, hp, ht]⟩
    · have h' : containsSeq sep cs = true := by
        simp only [containsSeq, Bool.or_eq_true] at h
        exact h.resolve_left hp
      obtain ⟨rest, hr⟩ := ih h'
      refine ⟨rest, ?_⟩
      simp only [splitFirstSeg, hp, if_false, List.cons_append]
      exact congrArg (c :: ·) hr

/-- The segment kept by `splitFirstSeg` ends no later than any occurrence
of the separator: the split happens at the FIRST occurrence. -/
theorem splitFirstSeg_min (sep : List Char) :
    ∀ (pre tl cs : List Char), cs = pre ++ sep ++ tl →
      (splitFirstSeg sep cs).length ≤ pre.length := by
  intro pre
  induction pre with
  | nil =>
    intro tl cs hcs
    simp only [List.nil_append] at hcs
    subst hcs
    cases sep with
    | nil => cases tl <;> simp [splitFirstSeg]
    | cons s sep' =>
      have hpre : (s :: sep').isPrefixOf (s :: (sep' ++ tl)) = true :=
        List.isPrefixOf_iff_prefix.mpr (List.prefix_append (s :: sep') tl)
      simp [splitFirstSeg, hpre]
  | cons p pre' ih =>
    intro tl cs hcs
    subst hcs
    simp only [List.cons_append, splitFirstSeg]
    split
    · simp
    · simp only [List.length_cons, List.append_eq, List.append_assoc]
      have := ih tl (pre' ++ (sep ++ tl)) (by simp)
      omega

/-- C1 (counterexample): a `Generate` request arriving while a generation
is already in flight (session Generating) is NOT rejected: the worker is
spawned and the User turn is appended to `chat_history`. -/
theorem generate_while_generating_not_rejected :
    (generate_and_display_response busyState "Hello again").spawned = true ∧
    (generate_and_display_response busyState "Hello again").state.chat_history
      = [⟨Role.user, "Hello again"⟩] ∧
    busyState.chat_history = [] := by
  decide

/-- C1 (amended): the only admission guard on the generate path is
`model_initialized`.  While Loading the request is rejected — no worker
spawned, `chat_history` untouched, a not-ready message printed to the
console; once the model is initialized the request always proceeds and
appends the User turn, whether or not a generation is in flight. -/
theorem generate_guard_is_only_model_initialized :
    (∀ (st : ChatAppState) (input_text : String), st.model_initialized = false →
        (generate_and_display_response st input_text).spawned = false ∧
        (generate_and_display_response st input_text).state = st ∧
        (generate_and_display_response st input_text).console
          = ["Model is not yet initialized. Please wait..."]) ∧
    (∀ (st : ChatAppState) (input_text : String), st.model_initialized = true →
        (generate_and_display_response st input_text).spawned = true ∧
        (generate_and_display_response st input_text).console = [] ∧
        (generate_and_display_response st input_text).state.chat_history
          = st.chat_history ++ [⟨Role.user, input_text⟩]) := by
  constructor
  · intro st input_text h
    simp [generate_and_display_response, h]
  · intro st input_text h
    simp [generate_and_display_response, h]

/-- C1 (witness): the Loading rejection at a concrete loading session and
the unconditional admission at a concrete busy session. -/
theorem generate_guard_witness :
    ((generate_and_display_response loadingState "Hi").spawned = false ∧
     (generate_and_display_response loadingState "Hi").state = loadingState ∧
     (generate_and_display_response loadingState "Hi").console
       = ["Model is not yet initialized. Please wait..."]) ∧
    ((generate_and_display_response busyState "Ping").spawned = true ∧
     (generate_and_display_response busyState "Ping").console = [] ∧
     (generate_and_display_response busyState "Ping").state.chat_history
       = busyState.chat_history ++ [⟨Role.user, "Ping"⟩]) :=
  ⟨generate_guard_is_only_model_initialized.1 loadingState "Hi" rfl,
   generate_guard_is_only_model_initialized.2 busyState "Ping" rfl⟩

/-- C4: a successful generate on an initialized session appends exactly
the User turn followed by the Assistant turn, and the Assistant content
is the raw generated text truncated at the FIRST occurrence of the
literal `"</s>"` (the full text when the marker is absent). -/
theorem successful_generate_appends_two_turns :
    ∀ (st : ChatAppState) (input_text raw : String), st.model_initialized = true →
      (successful_generate st input_text raw).chat_history
        = st.chat_history
            ++ [⟨Role.user, input_text⟩, ⟨Role.assistant, trim_response raw⟩] ∧
      (containsSeq eosToken.data raw.data = false → trim_response raw = raw) ∧
      (containsSeq eosToken.data raw.data = true →
        ∃ rest, raw.data = (trim_response raw).data ++ eosToken.data ++ rest ∧
          ∀ (pre tl : List Char), raw.data = pre ++ eosToken.data ++ tl →
            (trim_response raw).data.length ≤ pre.length) := by
  intro st input_text raw h
  refine ⟨?_, ?_, ?_⟩
  · simp [successful_generate, process_response_success,
      generate_and_display_response, h]
  · intro hc
    show (⟨splitFirstSeg eosToken.data raw.data⟩ : String) = raw
    rw [splitFirstSeg_of_not_contains _ _ hc]
  · intro hc
    obtain ⟨rest, hr⟩ := splitFirstSeg_append _ _ hc
    exact ⟨rest, hr, fun pre tl hpt => splitFirstSeg_min _ pre tl _ hpt⟩

/-- C4 (witness): `Generate("Hello")` on a Ready session whose runtime
returns `"Hi there</s>noise"` logs the User turn then the Assistant turn
with content `"Hi there"`. -/
theorem successful_generate_appends_two_turns_witness :
    (successful_generate readyState "Hello" "Hi there</s>noise").chat_history
      = [⟨Role.user, "Hello"⟩, ⟨Role.assistant, "Hi there"⟩] :=
  (successful_generate_appends_two_turns readyState "Hello" "Hi there</s>noise" rfl).1

/-- C8 (counterexample): at the 30-second soft threshold the tick sets
the "taking longer than expected" message and schedules NO further tick —
the ticks do not continue past the threshold. -/
theorem heartbeat_stops_at_threshold :
    update_generation_status 30
      = ("Generation is taking longer than expected...", none) := by
  decide

/-- C8 (amended): each tick below the 30-second threshold reports the
elapsed seconds and re-arms itself 500 ms later; the first tick at or
past the threshold switches to the "taking longer than expected" message
and does not reschedule, so the ticks stop there (and nothing cancels the
underlying generation call). -/
theorem heartbeat_reschedules_below_threshold_only :
    (∀ e : ℚ, e < 30 →
        update_generation_status e
          = ("Generating response... (" ++ toString ⌊e⌋ ++ "s)", some 500)) ∧
    (∀ e : ℚ, 30 ≤ e →
        update_generation_status e
          = ("Generation is taking longer than expected...", none)) := by
  constructor
  · intro e he
    simp [update_generation_status, MAX_GENERATION_TIME, he]
  · intro e he
    simp [update_generation_status, MAX_GENERATION_TIME, not_lt.mpr he]

/-- C8 (witness): the tick at 3 s reports and re-arms; the tick at 31 s
switches the message and stops. -/
theorem heartbeat_reschedules_witness :
    update_generation_status 3 = ("Generating response... (3s)", some 500) ∧
    update_generation_status 31
      = ("Generation is taking longer than expected...", none) :=
  ⟨heartbeat_reschedules_below_threshold_only.1 3 (by norm_num),
   heartbeat_reschedules_below_threshold_only.2 31 (by norm_num)⟩

/-- `round(x, 2)` is the identity on whole-megabyte sizes. -/
theorem round2_mb_of_dvd (b : Nat) (h : 1048576 ∣ b) :
    round2 ((b : ℚ) / (1024 * 1024)) = (b : ℚ) / (1024 * 1024) := by
  obtain ⟨k, rfl⟩ := h
  have h1 : ((1048576 * k : ℕ) : ℚ) / (1024 * 1024) = (k : ℚ) := by
    push_cast
    field_simp
    ring
  rw [h1, round2]
  have h2 : (k : ℚ) * 100 = ((k * 100 : ℕ) : ℚ) := by push_cast; ring
  rw [h2, round_natCast]
  push_cast
  field_simp

/-- The `size_mb` entry of a successfully read revision. -/
theorem recordSizeMB_ok (rid : String) (rev : Revision) (h : rev.readOk = true) :
    recordSizeMB (revisionRecord rid rev)
      = round2 ((rev.size_on_disk : ℚ) / (1024 * 1024)) := by
  unfold revisionRecord
  rw [if_pos h]
  rfl

/-- Per-repository sum of exported sizes, under whole-megabyte revisions
that all read successfully. -/
theorem revsSizeSum_eq (rid : String) (revs : List Revision)
    (hok : ∀ rev ∈ revs, rev.readOk = true)
    (hdvd : ∀ rev ∈ revs, 1048576 ∣ rev.size_on_disk) :
    ((revs.map (revisionRecord rid)).map recordSizeMB).sum
      = (((revs.map (·.size_on_disk)).sum : ℕ) : ℚ) / (1024 * 1024) := by
  induction revs with
  | nil => simp
  | cons rev revs ih =>
    have hrev : rev.readOk = true := hok rev (List.mem_cons_self rev revs)
    have hdrev : 1048576 ∣ rev.size_on_disk := hdvd rev (List.mem_cons_self rev revs)
    have ih' := ih (fun r hr => hok r (List.mem_cons_of_mem rev hr))
      (fun r hr => hdvd r (List.mem_cons_of_mem rev hr))
    simp only [List.map_cons, List.sum_cons, ih', recordSizeMB_ok rid rev hrev,
      round2_mb_of_dvd rev.size_on_disk hdrev]
    push_cast
    ring

/-- Sum of exported sizes over all repositories. -/
theorem reposSizeSum_eq (repos : List CachedRepo)
    (hok : ∀ repo ∈ repos, ∀ rev ∈ repo.revisions, rev.readOk = true)
    (hdvd : ∀ repo ∈ repos, ∀ rev ∈ repo.revisions, 1048576 ∣ rev.size_on_disk) :
    (((repos.map (fun repo => repo.revisions.map (revisionRecord repo.repo_id))).flatten).map
        recordSizeMB).sum
      = (((repos.map (fun repo => (repo.revisions.map (·.size_on_disk)).sum)).sum : ℕ) : ℚ)
          / (1024 * 1024) := by
  induction repos with
  | nil => simp
  | cons repo repos ih =>
    have h1 := revsSizeSum_eq repo.repo_id repo.revisions
      (hok repo (List.mem_cons_self repo repos))
      (hdvd repo (List.mem_cons_self repo repos))
    have ih' := ih (fun r hr => hok r (List.mem_cons_of_mem repo hr))
      (fun r hr => hdvd r (List.mem_cons_of_mem repo hr))
    simp only [List.map_cons, List.flatten_cons, List.map_append, List.sum_append,
      List.sum_cons, h1, ih']
    push_cast
    ring

/-- C5 (counterexample): when the structured scan fails, the total comes
from the directory-walk fallback while the model list is empty, so the
reported total (1 MB here) differs from the sum of per-model sizes (0). -/
theorem total_size_fallback_counterexample :
    get_total_cache_size walkOnlyEnv = 1 ∧
    modelsSizeSum walkOnlyEnv = 0 ∧
    get_total_cache_size walkOnlyEnv ≠ modelsSizeSum walkOnlyEnv := by
  have h1 : get_total_cache_size walkOnlyEnv = 1 := by
    show round2 (((1048576 : ℕ) : ℚ) / (1024 * 1024)) = 1
    rw [round2_mb_of_dvd 1048576 ⟨1, rfl⟩]
    norm_num
  have h2 : modelsSizeSum walkOnlyEnv = 0 := rfl
  refine ⟨h1, h2, by rw [h1, h2]; norm_num⟩

/-- C5 (amended): the reported total is the scan's aggregate
`size_on_disk`, not a sum over the model list; it equals the sum of the
per-model sizes whenever the structured scan succeeds, every revision
reads successfully, the revision sizes are whole megabytes, and the
aggregate equals the sum of the revision sizes (as in the 100 MB + 250 MB
scenario). -/
theorem total_size_matches_models_when_consistent :
    ∀ (env : CacheEnv) (info : CacheInfo),
      env.cacheInfo = some info →
      (∀ repo ∈ info.repos, ∀ rev ∈ repo.revisions, rev.readOk = true) →
      (∀ repo ∈ info.repos, ∀ rev ∈ repo.revisions, 1048576 ∣ rev.size_on_disk) →
      info.size_on_disk
          = (info.repos.map (fun repo => (repo.revisions.map (·.size_on_disk)).sum)).sum →
      get_total_cache_size env = modelsSizeSum env := by
  intro env info hinfo hok hdvd hagg
  have hdvdsum : 1048576 ∣ info.size_on_disk := by
    rw [hagg]
    refine List.dvd_sum ?_
    intro x hx
    obtain ⟨repo, hrepo, rfl⟩ := List.mem_map.mp hx
    refine List.dvd_sum ?_
    intro y hy
    obtain ⟨rev, hrev, rfl⟩ := List.mem_map.mp hy
    exact hdvd repo hrepo rev hrev
  simp only [get_total_cache_size, modelsSizeSum, get_downloaded_models, get_cache_info,
    hinfo]
  rw [round2_mb_of_dvd info.size_on_disk hdvdsum, reposSizeSum_eq info.repos hok hdvd, hagg]

/-- C5 (witness): two consistently scanned repositories of 100 MB and
250 MB: the reported total equals the sum of the two per-model sizes. -/
theorem total_size_matches_models_witness :
    get_total_cache_size twoRepoEnv = modelsSizeSum twoRepoEnv :=
  total_size_matches_models_when_consistent twoRepoEnv twoRepoInfo rfl
    (by decide) (by decide) (by decide)

/-- C6: a revision whose reads fail is still included in the scan result
— the model list length always equals the total number of revisions — and
its record carries the zeroed/unknown fields (`size_mb = 0`,
`revision = "unknown"`, `last_modified = "Unknown"`). -/
theorem scan_tolerates_revision_failures :
    ∀ (env : CacheEnv) (info : CacheInfo) (repo : CachedRepo) (rev : Revision),
      env.cacheInfo = some info → repo ∈ info.repos → rev ∈ repo.revisions →
      (get_downloaded_models env).length
          = (info.repos.map (fun r => r.revisions.length)).sum ∧
      revisionRecord repo.repo_id rev ∈ get_downloaded_models env ∧
      (rev.readOk = false →
        revisionRecord repo.repo_id rev
          = [("repo_id", JValue.jstr repo.repo_id),
             ("revision", JValue.jstr "unknown"),
             ("size_mb", JValue.jint 0),
             ("last_modified", JValue.jstr "Unknown"),
             ("error", JValue.jstr rev.errMsg)]) := by
  intro env info repo rev hinfo hrepo hrev
  refine ⟨?_, ?_, ?_⟩
  · simp [get_downloaded_models, get_cache_info, hinfo, List.length_flatten,
      List.map_map, Function.comp_def, List.length_map]
  · simp only [get_downloaded_models, get_cache_info, hinfo]
    rw [List.mem_flatten]
    exact ⟨repo.revisions.map (revisionRecord repo.repo_id),
      List.mem_map_of_mem _ hrepo, List.mem_map_of_mem _ hrev⟩
  · intro hfail
    simp [revisionRecord, hfail]

/-- C6 (witness): the failing revision of `failingEnv` is included, the
list length matches, and its record carries the zeroed/unknown fields. -/
theorem scan_tolerates_revision_failures_witness :
    (get_downloaded_models failingEnv).length
        = (failingInfo.repos.map (fun r => r.revisions.length)).sum ∧
    revisionRecord failingRepo.repo_id failingRevision ∈ get_downloaded_models failingEnv ∧
    revisionRecord failingRepo.repo_id failingRevision
      = [("repo_id", JValue.jstr failingRepo.repo_id),
         ("revision", JValue.jstr "unknown"),
         ("size_mb", JValue.jint 0),
         ("last_modified", JValue.jstr "Unknown"),
         ("error", JValue.jstr failingRevision.errMsg)] :=
  ⟨(scan_tolerates_revision_failures failingEnv failingInfo failingRepo failingRevision
      rfl (by decide) (by decide)).1,
   (scan_tolerates_revision_failures failingEnv failingInfo failingRepo failingRevision
      rfl (by decide) (by decide)).2.1,
   (scan_tolerates_revision_failures failingEnv failingInfo failingRepo failingRevision
      rfl (by decide) (by decide)).2.2 rfl⟩

/-- C7 (counterexample): deleting the very entry the orchestrator is
currently loading is not rejected with a busy error — the call simply
succeeds when the underlying deletion succeeds. -/
theorem delete_during_matching_load_not_rejected :
    delete_model_during_load (some "acme/model") none "acme/model" (some "abc123")
      = (true, "Successfully deleted acme/model (abc123)") :=
  rfl

/-- C7 (amended): no cache-busy guard exists: `delete_model`'s result is
entirely independent of any in-flight load — it reports success exactly
when the underlying `delete_from_cache` call succeeds, and otherwise
relays the error text, even when the target matches the loading model. -/
theorem delete_model_ignores_load_state :
    (∀ (l₁ l₂ err : Option String) (rid : String) (rev : Option String),
        delete_model_during_load l₁ err rid rev = delete_model_during_load l₂ err rid rev) ∧
    (∀ (l : Option String) (rid : String) (rev : Option String),
        delete_model_during_load l none rid rev
          = (true, "Successfully deleted " ++ rid ++ " (" ++ rev.getD "None" ++ ")")) ∧
    (∀ (l : Option String) (e rid : String) (rev : Option String),
        delete_model_during_load l (some e) rid rev
          = (false, "Error deleting model: " ++ e)) :=
  ⟨fun _ _ _ _ _ => rfl, fun _ _ _ => rfl, fun _ _ _ _ => rfl⟩

/-- C9 (counterexample): the export of a cache with one failed-read
revision serializes an element whose fields are `repo_id`, `revision`,
`size_mb`, `last_modified` and `error` — there is no `files` field, so
not every element has exactly the claimed field set. -/
theorem export_failed_revision_fields_counterexample :
    (export_models_info failingEnv "models.json" none).2
      = some (renderModelsJson (get_downloaded_models failingEnv)) ∧
    (get_downloaded_models failingEnv).map (fun r => r.map Prod.fst)
      = [["repo_id", "revision", "size_mb", "last_modified", "error"]] :=
  ⟨rfl, by decide⟩

/-- C9 (amended): elements for successfully read revisions have exactly
the fields `{repo_id, revision, size_mb, last_modified, files}`; elements
for failed revisions have `error` in place of `files`; and exporting an
empty cache writes the literal `[]` and reports success. -/
theorem export_fields_and_empty_cache :
    (∀ (rid : String) (rev : Revision), rev.readOk = true →
        (revisionRecord rid rev).map Prod.fst
          = ["repo_id", "revision", "size_mb", "last_modified", "files"]) ∧
    (∀ (rid : String) (rev : Revision), rev.readOk = false →
        (revisionRecord rid rev).map Prod.fst
          = ["repo_id", "revision", "size_mb", "last_modified", "error"]) ∧
    (∀ (env : CacheEnv) (file_path : String), get_downloaded_models env = [] →
        (export_models_info env file_path none).2 = some "[]" ∧
        (export_models_info env file_path none).1
          = (true, "Model information exported to " ++ file_path)) := by
  refine ⟨?_, ?_, ?_⟩
  · intro rid rev h
    simp [revisionRecord, h]
  · intro rid rev h
    simp [revisionRecord, h]
  · intro env file_path h
    simp [export_models_info, renderModelsJson, h]

/-- C9 (witness): the field sets at concrete revisions and the `[]`
export of the concrete empty cache. -/
theorem export_fields_and_empty_cache_witness :
    (revisionRecord "a/one" (okRevision 1048576)).map Prod.fst
      = ["repo_id", "revision", "size_mb", "last_modified", "files"] ∧
    (revisionRecord "acme/model" failingRevision).map Prod.fst
      = ["repo_id", "revision", "size_mb", "last_modified", "error"] ∧
    (export_models_info emptyCacheEnv "out.json" none).2 = some "[]" :=
  ⟨export_fields_and_empty_cache.1 "a/one" (okRevision 1048576) rfl,
   export_fields_and_empty_cache.2.1 "acme/model" failingRevision rfl,
   (export_fields_and_empty_cache.2.2 emptyCacheEnv "out.json" (by decide)).1⟩

/-- C10: switching the secret-store backend while a key is stored
re-persists the key under the new backend but leaves the old backend's
copy in place: keyring→file leaves the keyring entry, file→keyring leaves
the base64 `encrypted_api_key` config entry. -/
theorem backend_switch_leaves_old_copy :
    (∀ (st : CredState) (k : List Nat),
        st.use_keyring = true → st.api_key_stored = true →
        st.keyring_entry = some k → k ≠ [] →
        (set_keyring_preference st false).1.encrypted_api_key
            = some (simple_encrypt k) ∧
        (set_keyring_preference st false).1.keyring_entry = some k ∧
        (set_keyring_preference st false).1.use_keyring = false ∧
        (set_keyring_preference st false).2 = (true, "API key saved successfully")) ∧
    (∀ (st : CredState) (k : List Nat),
        st.use_keyring = false → st.api_key_stored = true →
        get_api_key st = some k → k ≠ [] →
        (set_keyring_preference st true).1.keyring_entry = some k ∧
        (set_keyring_preference st true).1.encrypted_api_key = st.encrypted_api_key ∧
        (set_keyring_preference st true).1.use_keyring = true ∧
        (set_keyring_preference st true).2 = (true, "API key saved successfully")) := by
  have hne : ∀ (k : List Nat), k ≠ [] → k.isEmpty = false := by
    intro k hk
    cases k with
    | nil => exact absurd rfl hk
    | cons a l => rfl
  constructor
  · intro st k h1 h2 h3 h4
    have hget : get_api_key st = some k := by
      simp [get_api_key, h1, h2, h3]
    simp [set_keyring_preference, hget, set_api_key, hne k h4, h2, h3]
  · intro st k h1 h2 h3 h4
    simp [set_keyring_preference, h3, set_api_key, hne k h4, h2]

/-- C10 (witness): the migration in both directions for the concrete key
`"hi"`: keyring→file leaves the keyring entry and writes `"aGk="` to the
config; file→keyring leaves `"aGk="` in the config and writes the key to
the keyring. -/
theorem backend_switch_leaves_old_copy_witness :
    ((set_keyring_preference keyringStoredState false).1.encrypted_api_key
         = some (simple_encrypt [104, 105]) ∧
     (set_keyring_preference keyringStoredState false).1.keyring_entry
         = some [104, 105] ∧
     (set_keyring_preference keyringStoredState false).1.use_keyring = false ∧
     (set_keyring_preference keyringStoredState false).2
         = (true, "API key saved successfully")) ∧
    ((set_keyring_preference fileStoredState true).1.keyring_entry
         = some [104, 105] ∧
     (set_keyring_preference fileStoredState true).1.encrypted_api_key
         = fileStoredState.encrypted_api_key ∧
     (set_keyring_preference fileStoredState true).1.use_keyring = true ∧
     (set_keyring_preference fileStoredState true).2
         = (true, "API key saved successfully")) :=
  ⟨backend_switch_leaves_old_copy.1 keyringStoredState [104, 105] rfl rfl rfl (by decide),
   backend_switch_leaves_old_copy.2 fileStoredState [104, 105] rfl rfl (by decide) (by decide)⟩

end WawaChat
